import Mathlib

/-!
Verification of the filter-and-aggregate pipeline of the e-commerce
dashboard (src/app.py), shallowly embedded in Lean 4.

Timestamps are modelled as natural numbers counting hours since the
start timestamp of the synthetic dataset (2024-01-01 00:00), so that
the date component of a timestamp t is t / 24 and the hour component
is t % 24, matching pandas .dt.date and .dt.hour on the hourly
sequence generated by the provider. Prices, quantities and revenues
are natural numbers (np.random.randint produces integers); the means
computed by the dashboard live in the rationals.
-/

namespace Dashboard

/-- A raw order record: the ten columns of the dataset
(src/app.py lines 34-45 and section 6 of the spec). -/
structure Order where
  order_id : Nat
  user_id : Nat
  product_id : Nat
  product_name : String
  category : String
  price : Nat
  quantity : Nat
  order_date : Nat
  rating : Nat
  is_repeating_customer : Bool
deriving Repr, DecidableEq

/-- A preprocessed row: the raw columns plus the three derived columns
appended by src/app.py lines 54-56. -/
structure Row where
  order_id : Nat
  user_id : Nat
  product_id : Nat
  product_name : String
  category : String
  price : Nat
  quantity : Nat
  order_date : Nat
  rating : Nat
  is_repeating_customer : Bool
  revenue : Nat
  order_day : Nat
  order_hour : Nat
deriving Repr, DecidableEq

/-- Preprocessing (src/app.py lines 54-56): revenue = quantity * price,
order_day = date component of order_date, order_hour = hour component. -/
def preprocess (o : Order) : Row :=
  { order_id := o.order_id
  , user_id := o.user_id
  , product_id := o.product_id
  , product_name := o.product_name
  , category := o.category
  , price := o.price
  , quantity := o.quantity
  , order_date := o.order_date
  , rating := o.rating
  , is_repeating_customer := o.is_repeating_customer
  , revenue := o.quantity * o.price
  , order_day := o.order_date / 24
  , order_hour := o.order_date % 24 }

/-- The boolean filter mask of src/app.py lines 81-85: a row passes iff
start_date <= order_day <= end_date and its category is in the
selected list. -/
def rowMatches (startDay endDay : Nat) (cats : List String) (r : Row) : Bool :=
  decide (startDay ≤ r.order_day) && decide (r.order_day ≤ endDay) &&
    cats.contains r.category

/-- Applying the filters (src/app.py lines 81-85): the subset of rows of
the table satisfying the mask. -/
def filterTable (tbl : List Row) (startDay endDay : Nat)
    (cats : List String) : List Row :=
  tbl.filter (rowMatches startDay endDay cats)

/-- The distinct values of a list in first-occurrence order, as produced
by pandas Series.unique and Series.nunique; seen holds the values
already emitted. -/
def dedupFirst {κ : Type} [DecidableEq κ] (seen : List κ) :
    List κ → List κ
  | [] => []
  | x :: xs =>
    if x ∈ seen then dedupFirst seen xs
    else x :: dedupFirst (x :: seen) xs

/-- Stable insertion of x into a list: x is placed before the first
element y with r x y, so an element inserted from earlier in the input
comes before later elements it ties with. -/
def insertIn {α : Type} (r : α → α → Bool) (x : α) :
    List α → List α
  | [] => [x]
  | y :: ys => if r x y then x :: y :: ys else y :: insertIn r x ys

/-- Stable insertion sort with respect to r, where r x y means x may be
placed before y. Models the deterministic order pandas produces here:
groupby emits its groups sorted by key, and numpy sorting of the small
arrays in this dashboard preserves the order of ties. -/
def sortBy {α : Type} (r : α → α → Bool) : List α → List α
  | [] => []
  | x :: xs => insertIn r x (sortBy r xs)

/-- Lexicographic strict comparison of character lists by code point:
how Python compares the strings that pandas sorts when grouping on an
object column. -/
def strLtChars : List Char → List Char → Bool
  | [], [] => false
  | [], _ :: _ => true
  | _ :: _, [] => false
  | a :: as, b :: bs =>
    if a < b then true else if b < a then false else strLtChars as bs

/-- Python string strict comparison a < b. -/
def pyStrLt (a b : String) : Bool := strLtChars a.toList b.toList

/-- Python string comparison a <= b, the sort order of pandas groupby
on a string key. -/
def pyStrLe (a b : String) : Bool := !(pyStrLt b a)

/-- Comparison of Nat-valued keys (days, hours). -/
def natKeyLe (a b : Nat) : Bool := decide (a ≤ b)

/-- The group keys of df.groupby(key): the distinct key values, sorted
ascending by the given key order (pandas groupby defaults to
sort=True). -/
def sortedGroupKeys {κ : Type} [DecidableEq κ] (le : κ → κ → Bool)
    (key : Row → κ) (tbl : List Row) : List κ :=
  sortBy le (dedupFirst [] (tbl.map key))

/-- df.groupby(key, as_index=False)["revenue"].sum(): one pair per
distinct key in ascending key order, carrying the summed revenue of the
rows in that group (src/app.py lines 113, 125, 137). -/
def groupRevenueSum {κ : Type} [DecidableEq κ] (le : κ → κ → Bool)
    (key : Row → κ) (tbl : List Row) : List (κ × Nat) :=
  (sortedGroupKeys le key tbl).map
    (fun k =>
      (k, ((tbl.filter (fun r => decide (key r = k))).map Row.revenue).sum))

/-- df.groupby(key, as_index=False)["order_id"].count(): one pair per
distinct key in ascending key order, carrying the number of rows in
that group (order_id is never null) (src/app.py line 148). -/
def groupOrderCount {κ : Type} [DecidableEq κ] (le : κ → κ → Bool)
    (key : Row → κ) (tbl : List Row) : List (κ × Nat) :=
  (sortedGroupKeys le key tbl).map
    (fun k => (k, (tbl.filter (fun r => decide (key r = k))).length))

/-- df["revenue"].sum() (src/app.py line 95). -/
def total_rev (df : List Row) : Nat := (df.map Row.revenue).sum

/-- df["order_id"].nunique() (src/app.py line 96). -/
def total_orders (df : List Row) : Nat :=
  (dedupFirst [] (df.map Row.order_id)).length

/-- df["revenue"].mean() (src/app.py line 97): the sum of the revenue
column divided by the number of rows, as a rational. -/
def avg_val (df : List Row) : ℚ :=
  (total_rev df : ℚ) / (df.length : ℚ)

/-- df["is_repeating_customer"].mean() * 100 (src/app.py line 98). -/
def repeat_rate (df : List Row) : ℚ :=
  ((df.filter Row.is_repeating_customer).length : ℚ) / (df.length : ℚ) * 100

/-- Revenue summed by order_day (src/app.py line 113). -/
def daily (df : List Row) : List (Nat × Nat) :=
  groupRevenueSum natKeyLe Row.order_day df

/-- Revenue summed by category (src/app.py line 125). -/
def cat_rev (df : List Row) : List (String × Nat) :=
  groupRevenueSum pyStrLe Row.category df

/-- The top-5 products table (src/app.py line 137): revenue summed by
product_name (groupby, keys in ascending name order), sorted by revenue
descending, truncated to the first 5 rows. -/
def top (df : List Row) : List (String × Nat) :=
  (sortBy (fun a b => decide (b.2 ≤ a.2))
    (groupRevenueSum pyStrLe Row.product_name df)).take 5

/-- Order count by order_hour (src/app.py line 148). -/
def hourly (df : List Row) : List (Nat × Nat) :=
  groupOrderCount natKeyLe Row.order_hour df

/-- The outputs of the Aggregation Engine: the four scalar KPIs and the
four grouped tables (src/app.py lines 95-98, 113, 125, 137, 148). -/
structure Aggregates where
  total_revenue : Nat
  orders : Nat
  avg_order_value : ℚ
  repeating_rate : ℚ
  daily_rev : List (Nat × Nat)
  category_rev : List (String × Nat)
  top_products : List (String × Nat)
  hourly_counts : List (Nat × Nat)
deriving Repr, DecidableEq

/-- Running the Aggregation Engine over a filtered subset. -/
def aggregate (df : List Row) : Aggregates :=
  { total_revenue := total_rev df
  , orders := total_orders df
  , avg_order_value := avg_val df
  , repeating_rate := repeat_rate df
  , daily_rev := daily df
  , category_rev := cat_rev df
  , top_products := top df
  , hourly_counts := hourly df }

/-- What the dashboard body renders: either the no-data notice, carrying
no aggregates at all, or the full report. -/
inductive DashboardView where
  | noData : DashboardView
  | report : Aggregates → DashboardView
deriving Repr, DecidableEq

/-- The dashboard body (src/app.py lines 81-155): apply the filters;
if the subset is empty, warn and stop before any KPI or grouped table
is computed; otherwise aggregate the subset. -/
def renderDashboard (tbl : List Row) (startDay endDay : Nat)
    (cats : List String) : DashboardView :=
  let df := filterTable tbl startDay endDay cats
  if df.isEmpty then DashboardView.noData
  else DashboardView.report (aggregate df)

/-- The minimum of the order_date column (df["order_date"].min(),
src/app.py line 62), over a nonempty table. -/
def minOrderDate : List Row → Nat
  | [] => 0
  | [r] => r.order_date
  | r :: s :: rs => min r.order_date (minOrderDate (s :: rs))

/-- The maximum of the order_date column (df["order_date"].max(),
src/app.py line 63), over a nonempty table. -/
def maxOrderDate : List Row → Nat
  | [] => 0
  | [r] => r.order_date
  | r :: s :: rs => max r.order_date (maxOrderDate (s :: rs))

/-- df["category"].unique() (src/app.py line 73): the distinct
categories in first-occurrence order. -/
def uniqueCats (tbl : List Row) : List String :=
  dedupFirst [] (tbl.map Row.category)

/-- One value stream per randomized column of the synthetic dataset.
np.random.randint(lo, hi, 500) yields, at each index, some integer in
the half-open range lo..hi; each stream below supplies the raw draws and
the construction maps them into the exact ranges src/app.py lines 34-45
request, so every property proved for all streams holds for every
possible numpy output. -/
structure RandStreams where
  userDraw : Nat → Nat
  productDraw : Nat → Nat
  nameDraw : Nat → Nat
  catDraw : Nat → Nat
  priceDraw : Nat → Nat
  qtyDraw : Nat → Nat
  ratingDraw : Nat → Nat
  boolDraw : Nat → Nat

/-- The closed category set of the generator (src/app.py line 39). -/
def categoryChoices : List String :=
  ["Electronics", "Fashion", "Home", "Beauty"]

/-- Row i of the synthetic dataset (src/app.py lines 34-45):
order_id from the contiguous range starting at 1000, user_id in 1..99,
product_id in 100..119, product_name among Product 1 .. Product 10,
category from the closed 4-element set, price in 50..499, quantity in
1..4, order_date the i-th element of the hourly timestamp sequence,
rating in 1..5, and a boolean repeat-customer flag. -/
def synthRow (rs : RandStreams) (i : Nat) : Order :=
  { order_id := 1000 + i
  , user_id := 1 + rs.userDraw i % 99
  , product_id := 100 + rs.productDraw i % 20
  , product_name := "Product " ++ toString (1 + rs.nameDraw i % 10)
  , category := categoryChoices.getD (rs.catDraw i % 4) ""
  , price := 50 + rs.priceDraw i % 450
  , quantity := 1 + rs.qtyDraw i % 4
  , order_date := i
  , rating := 1 + rs.ratingDraw i % 5
  , is_repeating_customer := rs.boolDraw i % 2 == 0 }

/-- The 500-row synthetic dataset (src/app.py lines 34-46). -/
def synthTable (rs : RandStreams) : List Order :=
  (List.range 500).map (synthRow rs)

/-- The filesystem as the Dataset Provider sees it: which paths hold a
dataset table, and which directories exist. -/
structure FileSystem where
  files : List (String × List Order)
  dirs : List String
deriving Repr, DecidableEq

/-- os.path.exists for a file path. -/
def fileAbsent (fs : FileSystem) (path : String) : Bool :=
  !(fs.files.any (fun f => f.1 == path))

/-- os.path.exists for a directory. -/
def dirAbsent (fs : FileSystem) (d : String) : Bool :=
  !(fs.dirs.contains d)

/-- The dataset file name (src/app.py line 17). -/
def dataFileName : String := "ecommerce_with_repeating.csv"

/-- The data directory (src/app.py line 18). -/
def dataFolder : String := "data"

/-- os.path.join(folder, filename) (src/app.py line 31). -/
def targetPath : String := "data/ecommerce_with_repeating.csv"

/-- Reading the table stored at a path (pd.read_csv). -/
def readFile (fs : FileSystem) (path : String) : List Order :=
  match fs.files.find? (fun f => f.1 == path) with
  | some f => f.2
  | none => []

/-- get_data (src/app.py lines 16-48): probe the candidate paths in
priority order and return the first table found; otherwise create the
data directory if absent, synthesize the 500-row table, write it to the
target path, and return it. Returns the table and the filesystem after
any directory creation and file write. -/
def get_data (rs : RandStreams) (fs : FileSystem) :
    List Order × FileSystem :=
  if !(fileAbsent fs targetPath) then (readFile fs targetPath, fs)
  else if !(fileAbsent fs dataFileName) then (readFile fs dataFileName, fs)
  else
    let fs1 : FileSystem :=
      if dirAbsent fs dataFolder then
        { fs with dirs := dataFolder :: fs.dirs }
      else fs
    let tbl := synthTable rs
    (tbl, { fs1 with files := (targetPath, tbl) :: fs1.files })

/-- The state a user interaction can touch: the full preprocessed
dataset loaded at session start (df_original in src/app.py). -/
structure Session where
  df_original : List Row
deriving Repr, DecidableEq

/-- Applying the sidebar filters (src/app.py lines 81-85) as a state
transformer: the boolean-mask selection builds a new list and returns
the session state it read from. -/
def applyFilters (s : Session) (a b : Nat) (cats : List String) :
    List Row × Session :=
  (filterTable s.df_original a b cats, s)

/-- The KPI and group-by statements (src/app.py lines 95-148) as a state
transformer over the session: every one of them is a reduction of the
filtered subset and none assigns to df_original. -/
def runAggregations (df : List Row) (s : Session) :
    Aggregates × Session :=
  (aggregate df, s)

/-- One full interaction pass (src/app.py lines 81-155): filter, stop on
an empty subset, otherwise aggregate; returns the rendered view and the
session state as it stands afterwards. -/
def interaction (s : Session) (a b : Nat) (cats : List String) :
    DashboardView × Session :=
  let fr := applyFilters s a b cats
  if fr.1.isEmpty then (DashboardView.noData, fr.2)
  else
    let ar := runAggregations fr.1 fr.2
    (DashboardView.report ar.1, ar.2)

/-- The all-zero draw streams, a concrete instantiation of the
generator's randomness. -/
def rsZero : RandStreams :=
  { userDraw := fun _ => 0
  , productDraw := fun _ => 0
  , nameDraw := fun _ => 0
  , catDraw := fun _ => 0
  , priceDraw := fun _ => 0
  , qtyDraw := fun _ => 0
  , ratingDraw := fun _ => 0
  , boolDraw := fun _ => 0 }

/-- A concrete order whose timestamp falls on day 1 at hour 5
(order_date 29 = 24 + 5 hours after the epoch). -/
def exOrderH : Order :=
  { order_id := 1, user_id := 1, product_id := 1
  , product_name := "Product 1", category := "Electronics"
  , price := 10, quantity := 2, order_date := 29, rating := 5
  , is_repeating_customer := false }

/-- A concrete order whose timestamp falls on day 4
(order_date 100 = 4 * 24 + 4 hours after the epoch). -/
def exOrderD : Order :=
  { order_id := 2, user_id := 1, product_id := 1
  , product_name := "Product 1", category := "Electronics"
  , price := 10, quantity := 1, order_date := 100, rating := 4
  , is_repeating_customer := true }

/-- First row of the tie example: Product 2 is encountered first. -/
def exTieOrderA : Order :=
  { order_id := 3, user_id := 1, product_id := 2
  , product_name := "Product 2", category := "Electronics"
  , price := 100, quantity := 1, order_date := 0, rating := 5
  , is_repeating_customer := false }

/-- Second row of the tie example: Product 10 is encountered second and
earns exactly the same revenue as Product 2. -/
def exTieOrderB : Order :=
  { order_id := 4, user_id := 2, product_id := 10
  , product_name := "Product 10", category := "Electronics"
  , price := 100, quantity := 1, order_date := 1, rating := 5
  , is_repeating_customer := false }

/-- The two-row tie table, preprocessed. -/
def exTieTbl : List Row :=
  [preprocess exTieOrderA, preprocess exTieOrderB]

/-- The empty filesystem: no dataset file anywhere, no data
directory. -/
def fsEmpty : FileSystem := { files := [], dirs := [] }

/-! Helper lemmas about the embedded list operations. -/

theorem mem_dedupFirst {κ : Type} [DecidableEq κ] (z : κ) (seen l : List κ) :
    z ∈ dedupFirst seen l ↔ z ∈ l ∧ z ∉ seen := by
  induction l generalizing seen with
  | nil => simp [dedupFirst]
  | cons x xs ih =>
    by_cases hx : x ∈ seen
    · rw [dedupFirst, if_pos hx, ih]
      constructor
      · rintro ⟨h1, h2⟩
        exact ⟨List.mem_cons_of_mem x h1, h2⟩
      · rintro ⟨h1, h2⟩
        rcases List.mem_cons.mp h1 with h3 | h3
        · subst h3; exact absurd hx h2
        · exact ⟨h3, h2⟩
    · rw [dedupFirst, if_neg hx]
      constructor
      · intro h
        rcases List.mem_cons.mp h with h3 | h3
        · subst h3; exact ⟨List.mem_cons_self z xs, hx⟩
        · rcases (ih (x :: seen)).mp h3 with ⟨h4, h5⟩
          exact ⟨List.mem_cons_of_mem x h4,
            fun hz => h5 (List.mem_cons_of_mem x hz)⟩
      · rintro ⟨h1, h2⟩
        rcases List.mem_cons.mp h1 with h3 | h3
        · subst h3; exact List.mem_cons_self z _
        · by_cases hzx : z = x
          · subst hzx; exact List.mem_cons_self z _
          · refine List.mem_cons_of_mem x ((ih (x :: seen)).mpr ⟨h3, ?_⟩)
            intro hz
            rcases List.mem_cons.mp hz with h4 | h4
            · exact hzx h4
            · exact h2 h4

theorem dedupFirst_nodup {κ : Type} [DecidableEq κ] (seen l : List κ) :
    (dedupFirst seen l).Nodup := by
  induction l generalizing seen with
  | nil => simp [dedupFirst]
  | cons x xs ih =>
    by_cases hx : x ∈ seen
    · simpa [dedupFirst, hx] using ih seen
    · rw [dedupFirst, if_neg hx]
      refine List.nodup_cons.mpr ⟨fun hmem => ?_, ih (x :: seen)⟩
      exact ((mem_dedupFirst x (x :: seen) xs).mp hmem).2 (List.mem_cons_self x seen)

theorem insertIn_perm {α : Type} (r : α → α → Bool) (x : α) (l : List α) :
    (insertIn r x l).Perm (x :: l) := by
  induction l with
  | nil => simp [insertIn]
  | cons y ys ih =>
    by_cases hr : r x y
    · simp [insertIn, hr]
    · rw [insertIn, if_neg hr]
      exact List.Perm.trans (List.Perm.cons y ih) (List.Perm.swap x y ys)

theorem sortBy_perm {α : Type} (r : α → α → Bool) (l : List α) :
    (sortBy r l).Perm l := by
  induction l with
  | nil => simp [sortBy]
  | cons x xs ih =>
    exact (insertIn_perm r x (sortBy r xs)).trans (List.Perm.cons x ih)

theorem mem_sortBy {α : Type} (r : α → α → Bool) (z : α) (l : List α) :
    z ∈ sortBy r l ↔ z ∈ l :=
  (sortBy_perm r l).mem_iff

theorem insertIn_pairwise {α : Type} (r : α → α → Bool)
    (htot : ∀ a b, r a b = true ∨ r b a = true)
    (htrans : ∀ a b c, r a b = true → r b c = true → r a c = true)
    (x : α) (l : List α) (hl : l.Pairwise (fun a b => r a b = true)) :
    (insertIn r x l).Pairwise (fun a b => r a b = true) := by
  induction l with
  | nil => simp [insertIn]
  | cons y ys ih =>
    rcases List.pairwise_cons.mp hl with ⟨hy, hys⟩
    by_cases hr : r x y = true
    · rw [insertIn, if_pos hr]
      refine List.pairwise_cons.mpr ⟨?_, hl⟩
      intro z hz
      rcases List.mem_cons.mp hz with h1 | h1
      · subst h1; exact hr
      · exact htrans x y z hr (hy z h1)
    · rw [insertIn, if_neg hr]
      refine List.pairwise_cons.mpr ⟨?_, ih hys⟩
      intro z hz
      rcases List.mem_cons.mp ((insertIn_perm r x ys).mem_iff.mp hz) with h1 | h1
      · rcases htot x y with h2 | h2
        · exact absurd h2 hr
        · rw [h1]; exact h2
      · exact hy z h1

theorem sortBy_sorted {α : Type} (r : α → α → Bool)
    (htot : ∀ a b, r a b = true ∨ r b a = true)
    (htrans : ∀ a b c, r a b = true → r b c = true → r a c = true)
    (l : List α) :
    (sortBy r l).Pairwise (fun a b => r a b = true) := by
  induction l with
  | nil => simp [sortBy]
  | cons x xs ih => exact insertIn_pairwise r htot htrans x _ ih

theorem insertIn_pairwise_of {α : Type} (r : α → α → Bool)
    (T : α → α → Prop) (hcond : ∀ a b, r a b = false → T b a)
    (x : α) (l : List α) (hl : l.Pairwise T) (hx : ∀ y ∈ l, T x y) :
    (insertIn r x l).Pairwise T := by
  induction l with
  | nil => simp [insertIn]
  | cons y ys ih =>
    rcases List.pairwise_cons.mp hl with ⟨hy, hys⟩
    by_cases hr : r x y = true
    · rw [insertIn, if_pos hr]
      exact List.pairwise_cons.mpr ⟨hx, hl⟩
    · rw [insertIn, if_neg hr]
      refine List.pairwise_cons.mpr
        ⟨?_, ih hys (fun z hz => hx z (List.mem_cons_of_mem y hz))⟩
      intro z hz
      rcases List.mem_cons.mp ((insertIn_perm r x ys).mem_iff.mp hz) with h1 | h1
      · rw [h1]
        exact hcond x y (by simpa using hr)
      · exact hy z h1

theorem sortBy_pairwise_of {α : Type} (r : α → α → Bool)
    (T : α → α → Prop) (hcond : ∀ a b, r a b = false → T b a)
    (l : List α) (hl : l.Pairwise T) : (sortBy r l).Pairwise T := by
  induction l with
  | nil => simp [sortBy]
  | cons x xs ih =>
    rcases List.pairwise_cons.mp hl with ⟨hx, hxs⟩
    exact insertIn_pairwise_of r T hcond x _ (ih hxs)
      (fun y hy => hx y ((mem_sortBy r y xs).mp hy))

theorem strLtChars_irrefl (x : List Char) : strLtChars x x = false := by
  induction x with
  | nil => rfl
  | cons a as ih =>
    rw [strLtChars, if_neg (lt_irrefl a), if_neg (lt_irrefl a)]
    exact ih

theorem strLtChars_trans : ∀ x y z : List Char,
    strLtChars x y = true → strLtChars y z = true → strLtChars x z = true
  | [], [], _, h1, _ => by simp [strLtChars] at h1
  | [], _ :: _, [], _, h2 => by simp [strLtChars] at h2
  | [], _ :: _, _ :: _, _, _ => rfl
  | _ :: _, [], _, h1, _ => by simp [strLtChars] at h1
  | _ :: _, _ :: _, [], _, h2 => by simp [strLtChars] at h2
  | a :: as, b :: bs, c :: cs, h1, h2 => by
    by_cases h1b : a < b
    · by_cases h2b : b < c
      · have hac : a < c := lt_trans h1b h2b
        simp [strLtChars, hac]
      · by_cases h2c : c < b
        · rw [strLtChars, if_neg h2b, if_pos h2c] at h2
          exact absurd h2 (by simp)
        · have hbc : b = c := le_antisymm (not_lt.mp h2c) (not_lt.mp h2b)
          subst hbc
          simp [strLtChars, h1b]
    · by_cases h1c : b < a
      · rw [strLtChars, if_neg h1b, if_pos h1c] at h1
        exact absurd h1 (by simp)
      · have hab : a = b := le_antisymm (not_lt.mp h1c) (not_lt.mp h1b)
        subst hab
        rw [strLtChars, if_neg h1b, if_neg h1b] at h1
        by_cases h2b : a < c
        · simp [strLtChars, h2b]
        · by_cases h2c : c < a
          · rw [strLtChars, if_neg h2b, if_pos h2c] at h2
            exact absurd h2 (by simp)
          · have hac : a = c := le_antisymm (not_lt.mp h2c) (not_lt.mp h2b)
            subst hac
            rw [strLtChars, if_neg h2b, if_neg h2b] at h2
            rw [strLtChars, if_neg h2b, if_neg h2b]
            exact strLtChars_trans as bs cs h1 h2

theorem strLtChars_trichot : ∀ x y : List Char,
    strLtChars x y = true ∨ x = y ∨ strLtChars y x = true
  | [], [] => Or.inr (Or.inl rfl)
  | [], _ :: _ => Or.inl rfl
  | _ :: _, [] => Or.inr (Or.inr rfl)
  | a :: as, b :: bs => by
    rcases lt_trichotomy a b with h | h | h
    · left; simp [strLtChars, h]
    · subst h
      rcases strLtChars_trichot as bs with h1 | h1 | h1
      · left
        rw [strLtChars, if_neg (lt_irrefl a), if_neg (lt_irrefl a)]
        exact h1
      · right; left; rw [h1]
      · right; right
        rw [strLtChars, if_neg (lt_irrefl a), if_neg (lt_irrefl a)]
        exact h1
    · right; right; simp [strLtChars, h]

theorem strLtChars_asymm {x y : List Char} (h : strLtChars x y = true) :
    strLtChars y x = false := by
  by_contra hc
  have h2 : strLtChars y x = true := by simpa using hc
  have h3 := strLtChars_trans x y x h h2
  rw [strLtChars_irrefl] at h3
  exact absurd h3 (by simp)

theorem pyStrLe_total (a b : String) :
    pyStrLe a b = true ∨ pyStrLe b a = true := by
  rcases strLtChars_trichot a.toList b.toList with h | h | h
  · left
    rw [pyStrLe, pyStrLt, strLtChars_asymm h]
    rfl
  · left
    rw [pyStrLe, pyStrLt, h, strLtChars_irrefl]
    rfl
  · right
    rw [pyStrLe, pyStrLt, strLtChars_asymm h]
    rfl

theorem pyStrLe_trans (a b c : String) (h1 : pyStrLe a b = true)
    (h2 : pyStrLe b c = true) : pyStrLe a c = true := by
  simp only [pyStrLe, pyStrLt, Bool.not_eq_true'] at h1 h2 ⊢
  rcases strLtChars_trichot c.toList a.toList with h | h | h
  · rcases strLtChars_trichot b.toList a.toList with g | g | g
    · rw [h1] at g
      exact absurd g (by simp)
    · rw [g] at h2
      exact h2
    · rw [strLtChars_trans _ _ _ h g] at h2
      exact absurd h2 (by simp)
  · rw [h]
    exact strLtChars_irrefl _
  · exact strLtChars_asymm h

theorem pyStrLt_of_le_of_ne {a b : String} (h : pyStrLe a b = true)
    (hne : a ≠ b) : pyStrLt a b = true := by
  simp only [pyStrLe, pyStrLt, Bool.not_eq_true'] at h ⊢
  rcases strLtChars_trichot a.toList b.toList with h1 | h1 | h1
  · exact h1
  · exact absurd (String.toList_inj.mp h1) hne
  · rw [h1] at h
    exact absurd h (by simp)

theorem minOrderDate_le :
    ∀ {tbl : List Row} {r : Row}, r ∈ tbl →
      minOrderDate tbl ≤ r.order_date
  | [], r, h => absurd h (List.not_mem_nil r)
  | [x], r, h => by
    obtain rfl := List.mem_singleton.mp h
    exact le_of_eq rfl
  | x :: y :: ys, r, h => by
    rcases List.mem_cons.mp h with h1 | h1
    · subst h1
      exact min_le_left _ _
    · exact le_trans (min_le_right _ _) (minOrderDate_le h1)

theorem le_maxOrderDate :
    ∀ {tbl : List Row} {r : Row}, r ∈ tbl →
      r.order_date ≤ maxOrderDate tbl
  | [], r, h => absurd h (List.not_mem_nil r)
  | [x], r, h => by
    obtain rfl := List.mem_singleton.mp h
    exact le_of_eq rfl
  | x :: y :: ys, r, h => by
    rcases List.mem_cons.mp h with h1 | h1
    · subst h1
      exact le_max_left _ _
    · exact le_trans (le_maxOrderDate h1) (le_max_right _ _)

theorem synthTable_length (rs : RandStreams) :
    (synthTable rs).length = 500 := by
  simp [synthTable]

theorem synthTable_order_ids (rs : RandStreams) :
    (synthTable rs).map Order.order_id =
      (List.range 500).map (fun i => 1000 + i) := by
  simp only [synthTable, List.map_map]
  rfl

/-- C1: a row is in the filtered subset iff it is in the table, its
order_day lies in the inclusive date range, and its category belongs to
the selected set: every retained row satisfies both predicates and every
table row satisfying both is retained. -/
theorem filter_characterization (tbl : List Row) (a b : Nat)
    (C : List String) (r : Row) :
    r ∈ filterTable tbl a b C ↔
      r ∈ tbl ∧ (a ≤ r.order_day ∧ r.order_day ≤ b) ∧ r.category ∈ C := by
  simp [filterTable, rowMatches, List.mem_filter, and_assoc]

/-- C2 (code evaluated at the failing input): over a one-row subset
whose single order falls at hour 5, the hourly table the code computes
has a single entry rather than one entry per each of the 24 hours:
groupby omits hours with zero orders instead of reporting them as 0. -/
theorem hourly_omits_zero_hours :
    hourly [preprocess exOrderH] = [(5, 1)] ∧
      (hourly [preprocess exOrderH]).length ≠ 24 := by
  constructor
  · decide
  · decide

/-- C3: avg_order_value is the mean of per-row revenue, so over any
non-empty subset it multiplied by the row count gives back
total_revenue exactly (the embedding computes in the rationals from
integer price and quantity). -/
theorem avg_val_mul_row_count (df : List Row) (h : df ≠ []) :
    avg_val df * (df.length : ℚ) = (total_rev df : ℚ) := by
  have hlen0 : df.length ≠ 0 := by
    simpa [List.length_eq_zero] using h
  have hlen : (df.length : ℚ) ≠ 0 := Nat.cast_ne_zero.mpr hlen0
  rw [avg_val, div_mul_cancel₀ _ hlen]

/-- C3 witness: the identity evaluated on a concrete one-row subset. -/
theorem avg_val_mul_row_count_witness :
    avg_val [preprocess exOrderH] *
        (([preprocess exOrderH] : List Row).length : ℚ) =
      (total_rev [preprocess exOrderH] : ℚ) :=
  avg_val_mul_row_count [preprocess exOrderH] (by decide)

/-- C5: the dashboard renders the no-data notice exactly when the
filtered subset is empty; the noData view carries no Aggregates value,
so the Aggregation Engine is never invoked on an empty subset and its
divisions by the row count are unreachable there. -/
theorem empty_subset_short_circuits (tbl : List Row) (s e : Nat)
    (cats : List String) :
    renderDashboard tbl s e cats = DashboardView.noData ↔
      filterTable tbl s e cats = [] := by
  simp only [renderDashboard]
  rcases h : filterTable tbl s e cats with _ | ⟨r, rs⟩
  · simp [h]
  · simp [h]

/-- C8 counterexample: with the inverted range (start 5, end 3) no
validation or clamping happens: the table holds a row whose order_day 4
lies inside the swapped range, yet the filtered subset is empty and the
dashboard silently renders the generic no-data notice. -/
theorem no_inverted_range_validation :
    filterTable [preprocess exOrderD] 5 3 ["Electronics"] = [] ∧
      renderDashboard [preprocess exOrderD] 5 3 ["Electronics"] =
        DashboardView.noData := by
  constructor
  · decide
  · decide

/-- C8 (amended): the system performs no start-day/end-day validation:
whenever start_day > end_day the filtered subset is always empty and
the dashboard falls through to the generic empty-subset guard,
rendering the no-data notice. -/
theorem inverted_range_always_empty (tbl : List Row) (s e : Nat)
    (cats : List String) (h : e < s) :
    filterTable tbl s e cats = [] ∧
      renderDashboard tbl s e cats = DashboardView.noData := by
  have hf : filterTable tbl s e cats = [] := by
    rw [filterTable, List.filter_eq_nil_iff]
    intro r hr
    rw [rowMatches]
    intro hx
    simp only [Bool.and_eq_true, decide_eq_true_eq] at hx
    rcases hx with ⟨⟨ha, hb⟩, -⟩
    omega
  refine ⟨hf, ?_⟩
  simp [renderDashboard, hf]

/-- C8 witness for the amended statement, at a concrete inverted
range. -/
theorem inverted_range_always_empty_witness :
    filterTable [preprocess exOrderD] 4 2 ["Electronics"] = [] ∧
      renderDashboard [preprocess exOrderD] 4 2 ["Electronics"] =
        DashboardView.noData :=
  inverted_range_always_empty [preprocess exOrderD] 4 2 ["Electronics"]
    (by decide)

/-- C9: one full interaction pass returns the session state it was
given, unchanged: filtering derives a new subset without mutating
df_original and every aggregation is a read-only reduction over the
subset, so the rendered view is a pure function of the dataset and the
selections. -/
theorem interaction_preserves_dataset (s : Session) (a b : Nat)
    (cats : List String) :
    (interaction s a b cats).2 = s ∧
      (interaction s a b cats).1 =
        renderDashboard s.df_original a b cats := by
  by_cases h : (filterTable s.df_original a b cats).isEmpty <;>
    simp [interaction, applyFilters, runAggregations, renderDashboard, h]

/-- C6: filtering with the default inputs (the date range spanning the
minimum to the maximum order_date of the dataset converted to days, and
every distinct category present) retains every row of the preprocessed
table, in order. -/
theorem default_filter_is_identity (orders : List Order)
    (h : orders ≠ []) :
    filterTable (orders.map preprocess)
        (minOrderDate (orders.map preprocess) / 24)
        (maxOrderDate (orders.map preprocess) / 24)
        (uniqueCats (orders.map preprocess)) =
      orders.map preprocess := by
  apply List.filter_eq_self.mpr
  intro r hr
  rcases List.mem_map.mp hr with ⟨o, ho, rfl⟩
  rw [rowMatches]
  simp only [Bool.and_eq_true, decide_eq_true_eq, List.elem_iff]
  refine ⟨⟨?_, ?_⟩, ?_⟩
  · exact Nat.div_le_div_right (minOrderDate_le hr)
  · exact Nat.div_le_div_right (le_maxOrderDate hr)
  · exact (mem_dedupFirst _ _ _).mpr
      ⟨List.mem_map_of_mem Row.category hr, by simp⟩

/-- C6 witness: the default filter evaluated on a concrete one-row
dataset. -/
theorem default_filter_is_identity_witness :
    filterTable ([exOrderH].map preprocess)
        (minOrderDate ([exOrderH].map preprocess) / 24)
        (maxOrderDate ([exOrderH].map preprocess) / 24)
        (uniqueCats ([exOrderH].map preprocess)) =
      [exOrderH].map preprocess :=
  default_filter_is_identity [exOrderH] (by decide)

/-- C10: every row of the preprocessed synthetic dataset satisfies the
data-model constraints (price 50..499, quantity 1..4, rating 1..5,
category among the four fixed choices, order_hour 0..23) and the
order_id column is exactly the contiguous range 1000..1499, for every
possible draw of the random streams. -/
theorem synthetic_rows_valid (rs : RandStreams) :
    (∀ r ∈ (synthTable rs).map preprocess,
        50 ≤ r.price ∧ r.price ≤ 499 ∧
        1 ≤ r.quantity ∧ r.quantity ≤ 4 ∧
        1 ≤ r.rating ∧ r.rating ≤ 5 ∧
        r.category ∈ categoryChoices ∧
        r.order_hour ≤ 23) ∧
      (synthTable rs).map Order.order_id =
        (List.range 500).map (fun i => 1000 + i) := by
  refine ⟨?_, synthTable_order_ids rs⟩
  intro r hr
  rcases List.mem_map.mp hr with ⟨o, ho, rfl⟩
  rcases List.mem_map.mp ho with ⟨i, hi, rfl⟩
  refine ⟨?_, ?_, ?_, ?_, ?_, ?_, ?_, ?_⟩ <;>
    simp only [preprocess, synthRow]
  · omega
  · have := Nat.mod_lt (rs.priceDraw i) (show 0 < 450 by norm_num)
    omega
  · omega
  · have := Nat.mod_lt (rs.qtyDraw i) (show 0 < 4 by norm_num)
    omega
  · omega
  · have := Nat.mod_lt (rs.ratingDraw i) (show 0 < 5 by norm_num)
    omega
  · rcases (show rs.catDraw i % 4 = 0 ∨ rs.catDraw i % 4 = 1 ∨
        rs.catDraw i % 4 = 2 ∨ rs.catDraw i % 4 = 3 by omega)
      with h | h | h | h <;> rw [h] <;> decide
  · omega

/-- C10 witness: the constraints evaluated on the first row of a
concrete draw of the generator. -/
theorem synthetic_rows_valid_witness :
    50 ≤ (preprocess (synthRow rsZero 0)).price ∧
      (preprocess (synthRow rsZero 0)).price ≤ 499 ∧
      1 ≤ (preprocess (synthRow rsZero 0)).quantity ∧
      (preprocess (synthRow rsZero 0)).quantity ≤ 4 ∧
      1 ≤ (preprocess (synthRow rsZero 0)).rating ∧
      (preprocess (synthRow rsZero 0)).rating ≤ 5 ∧
      (preprocess (synthRow rsZero 0)).category ∈ categoryChoices ∧
      (preprocess (synthRow rsZero 0)).order_hour ≤ 23 :=
  (synthetic_rows_valid rsZero).1 (preprocess (synthRow rsZero 0))
    (List.mem_map_of_mem preprocess
      (List.mem_map_of_mem (synthRow rsZero)
        (List.mem_range.mpr (by norm_num))))

set_option maxRecDepth 10000 in
/-- C7: when neither candidate path holds the dataset file and the data
directory is absent, get_data creates the directory, writes the 500-row
synthetic table to data/ecommerce_with_repeating.csv, and returns that
same table, which has exactly 500 rows, all ten fields per row by
construction of Order, and order_id exactly the contiguous range
1000..1499. -/
theorem provider_generates_dataset (rs : RandStreams) (fs : FileSystem)
    (h1 : fileAbsent fs targetPath = true)
    (h2 : fileAbsent fs dataFileName = true)
    (h3 : dirAbsent fs dataFolder = true) :
    dirAbsent (get_data rs fs).2 dataFolder = false ∧
      fileAbsent (get_data rs fs).2 targetPath = false ∧
      readFile (get_data rs fs).2 targetPath = (get_data rs fs).1 ∧
      (get_data rs fs).1 = synthTable rs ∧
      ((get_data rs fs).1).length = 500 ∧
      ((get_data rs fs).1).map Order.order_id =
        (List.range 500).map (fun i => 1000 + i) := by
  have hget : get_data rs fs =
      (synthTable rs,
        { files := (targetPath, synthTable rs) :: fs.files
        , dirs := dataFolder :: fs.dirs }) := by
    rw [get_data, h1, h2, h3]
    simp
  rw [hget]
  refine ⟨?_, ?_, ?_, rfl, synthTable_length rs, synthTable_order_ids rs⟩
  · simp [dirAbsent]
  · simp [fileAbsent]
  · simp [readFile, List.find?_cons_of_pos]

set_option maxRecDepth 10000 in
/-- C7 witness: the provider run against the empty filesystem with the
all-zero draw streams. -/
theorem provider_generates_dataset_witness :
    dirAbsent (get_data rsZero fsEmpty).2 dataFolder = false ∧
      fileAbsent (get_data rsZero fsEmpty).2 targetPath = false ∧
      readFile (get_data rsZero fsEmpty).2 targetPath =
        (get_data rsZero fsEmpty).1 ∧
      (get_data rsZero fsEmpty).1 = synthTable rsZero ∧
      ((get_data rsZero fsEmpty).1).length = 500 ∧
      ((get_data rsZero fsEmpty).1).map Order.order_id =
        (List.range 500).map (fun i => 1000 + i) :=
  provider_generates_dataset rsZero fsEmpty (by decide) (by decide)
    (by decide)

/-- C4 (amended): the top-5 table has at most 5 rows; consecutive rows
carry non-increasing revenue; every listed product occurs in the
subset; and revenue ties appear in ascending alphabetical order of
product_name (the order groupby emits its group keys in), not in
original encounter order. -/
theorem top5_products (df : List Row) :
    (top df).length ≤ 5 ∧
      (top df).Pairwise (fun a b => b.2 ≤ a.2) ∧
      (∀ p ∈ top df, ∃ r ∈ df, r.product_name = p.1) ∧
      (top df).Pairwise
        (fun a b => a.2 = b.2 → pyStrLt a.1 b.1 = true) := by
  refine ⟨?_, ?_, ?_, ?_⟩
  · exact List.length_take_le _ _
  · have hs := sortBy_sorted (fun a b : String × Nat => decide (b.2 ≤ a.2))
      (fun a b => by rcases Nat.le_total b.2 a.2 with h | h <;> simp [h])
      (fun a b c hab hbc => by
        simp only [decide_eq_true_eq] at hab hbc ⊢
        exact le_trans hbc hab)
      (groupRevenueSum pyStrLe Row.product_name df)
    have hs2 := hs.sublist (List.take_sublist 5 _)
    exact hs2.imp (fun h => by simpa using h)
  · intro p hp
    simp only [top] at hp
    have hp1 := List.take_subset 5 _ hp
    have hp2 : p ∈ groupRevenueSum pyStrLe Row.product_name df :=
      (mem_sortBy _ _ _).mp hp1
    rcases List.mem_map.mp hp2 with ⟨k, hk, rfl⟩
    simp only [sortedGroupKeys] at hk
    have hk2 : k ∈ dedupFirst [] (df.map Row.product_name) :=
      (mem_sortBy _ _ _).mp hk
    have hk3 : k ∈ df.map Row.product_name :=
      ((mem_dedupFirst _ _ _).mp hk2).1
    rcases List.mem_map.mp hk3 with ⟨r, hr, hrk⟩
    exact ⟨r, hr, hrk⟩
  · have hkeys : (sortedGroupKeys pyStrLe Row.product_name df).Pairwise
        (fun a b => pyStrLt a b = true) := by
      have hle := sortBy_sorted pyStrLe pyStrLe_total pyStrLe_trans
        (dedupFirst [] (df.map Row.product_name))
      have hnd : (sortBy pyStrLe
          (dedupFirst [] (df.map Row.product_name))).Nodup :=
        ((sortBy_perm pyStrLe _).nodup_iff).mpr (dedupFirst_nodup _ _)
      exact (hle.and hnd).imp
        (fun hab => pyStrLt_of_le_of_ne hab.1 hab.2)
    have hpairs : (groupRevenueSum pyStrLe Row.product_name df).Pairwise
        (fun a b : String × Nat => pyStrLt a.1 b.1 = true) := by
      rw [groupRevenueSum]
      exact List.pairwise_map.mpr hkeys
    have hT : (groupRevenueSum pyStrLe Row.product_name df).Pairwise
        (fun a b : String × Nat =>
          a.2 = b.2 → pyStrLt a.1 b.1 = true) := by
      refine hpairs.imp ?_
      intro a b h he
      exact h
    have htie := sortBy_pairwise_of
      (fun a b : String × Nat => decide (b.2 ≤ a.2))
      (fun a b => a.2 = b.2 → pyStrLt a.1 b.1 = true)
      (fun a b hf => by
        simp only [decide_eq_false_iff_not] at hf
        intro he
        exact absurd (le_of_eq he) hf)
      (groupRevenueSum pyStrLe Row.product_name df) hT
    exact htie.sublist (List.take_sublist 5 _)

/-- C4 counterexample: in the two-row tie table the encounter order of
the products is Product 2 before Product 10, yet the top-5 table lists
Product 10 first: ties between equal revenues follow alphabetical key
order, not original encounter order. -/
theorem top5_tie_breaks_alphabetical :
    exTieTbl.map Row.product_name = ["Product 2", "Product 10"] ∧
      top exTieTbl = [("Product 10", 100), ("Product 2", 100)] := by
  constructor
  · decide
  · decide

end Dashboard
